import Mathlib

/-!
Shallow embedding of `src/samples/sample.py`.

The file contains a handful of small functions.  Each Python function is
translated to a Lean definition.  A Python call either returns a value or
raises an exception, so functions whose call-level behaviour matters
(may they raise?) are given result type `Except String α`, with
`Except.error msg` standing for `raise ValueError(msg)`.  The purely
arithmetic `is_leap` is additionally given as a plain `Int → Bool`
function (Python's `%` on a positive modulus agrees with Lean's `Int`
`%`, which is `Int.emod`: both are non-negative for a positive modulus).

Source functions:
  * `login()`            — body is `pass`, returns `None`.
  * `validate(username)` — raises `ValueError("Username required")` when
                           `not username`, i.e. when the argument is the
                           empty string or an absent/`None` value;
                           otherwise falls through and returns `None`.
  * `fake_auth()`        — returns `True`.
  * `is_leap(year)`      — `year % 4 == 0 and (year % 100 != 0 or year % 400 == 0)`.
  * `greet(name)`        — prints `"Hello, {name}"`; the printed text is
                           modelled as the returned value.
  * `old_auth()`         — returns `False`.
-/

/-- `def login(): pass` — the call returns `None` and raises nothing. -/
def login : Except String Unit := Except.ok ()

/-- `def validate(username)` — the argument is a string or an absent
(`None`) value, modelled as `Option String`; Python's `not username` is
true exactly on `None` and on the empty string. -/
def validate (username : Option String) : Except String Unit :=
  match username with
  | none => Except.error "Username required"
  | some s => if s = "" then Except.error "Username required" else Except.ok ()

/-- `def fake_auth(): return True` -/
def fake_auth : Except String Bool := Except.ok true

/-- `def is_leap(year)` as a pure function on integers. -/
def is_leap (year : Int) : Bool :=
  year % 4 == 0 && (year % 100 != 0 || year % 400 == 0)

/-- A call to `is_leap`: it returns its boolean and raises nothing. -/
def is_leap_call (year : Int) : Except String Bool := Except.ok (is_leap year)

/-- `def greet(name): print(f"Hello, {name}")` — the call raises nothing;
its observable output (the printed line) is the modelled result. -/
def greet (name : String) : Except String String :=
  Except.ok ("Hello, " ++ name)

/-- `def old_auth(): return False` -/
def old_auth : Except String Bool := Except.ok false

/-- C1: `is_leap year` is `true` iff `year` is divisible by 4 and
(not divisible by 100 or divisible by 400), and `false` otherwise. -/
theorem is_leap_iff_divisibility (year : Int) :
    is_leap year = true ↔ (4 ∣ year ∧ (¬ (100 ∣ year) ∨ 400 ∣ year)) := by
  simp only [is_leap, Bool.and_eq_true, Bool.or_eq_true, beq_iff_eq,
    bne_iff_ne, ne_eq]
  omega

/-- C2: `validate` fails with the error `"Username required"` exactly when
the username is absent or empty; every non-empty string is accepted; and
no other function of the program ever produces an error. -/
theorem validate_only_error_source :
    (∀ u, validate u = Except.error "Username required" ↔
      (u = none ∨ u = some "")) ∧
    (∀ u e, validate u = Except.error e → e = "Username required") ∧
    (∀ s, s ≠ "" → validate (some s) = Except.ok ()) ∧
    (∀ e, login ≠ Except.error e) ∧
    (∀ e, fake_auth ≠ Except.error e) ∧
    (∀ e, old_auth ≠ Except.error e) ∧
    (∀ y e, is_leap_call y ≠ Except.error e) ∧
    (∀ n e, greet n ≠ Except.error e) := by
  refine ⟨?_, ?_, ?_, ?_, ?_, ?_, ?_, ?_⟩
  · intro u
    cases u with
    | none => simp [validate]
    | some s =>
      by_cases h : s = "" <;> simp [validate, h]
  · intro u e h
    cases u with
    | none =>
      simp [validate] at h
      exact h.symm
    | some s =>
      by_cases hs : s = "" <;> simp [validate, hs] at h
      exact h.symm
  · intro s hs
    simp [validate, hs]
  · intro e h
    simp [login] at h
  · intro e h
    simp [fake_auth] at h
  · intro e h
    simp [old_auth] at h
  · intro y e h
    simp [is_leap_call] at h
  · intro n e h
    simp [greet] at h

/-- C2 witness: the accepting branch at the concrete username `"alice"`. -/
theorem validate_only_error_source_witness :
    validate (some "alice") = Except.ok () :=
  validate_only_error_source.2.2.1 "alice" (by decide)

/-- C3: the leap-year predicate is periodic with period 400. -/
theorem is_leap_period_400 (y : Int) : is_leap (y + 400) = is_leap y := by
  unfold is_leap
  have h4 : (y + 400) % 4 = y % 4 := by omega
  have h100 : (y + 400) % 100 = y % 100 := by omega
  have h400 : (y + 400) % 400 = y % 400 := by omega
  rw [h4, h100, h400]

/-- C4: concrete values of `is_leap` at 2000, 1900, 2024 and 2023. -/
theorem is_leap_concrete_values :
    is_leap 2000 = true ∧ is_leap 1900 = false ∧
    is_leap 2024 = true ∧ is_leap 2023 = false := by
  decide

/-- C5: a username made of one or more whitespace characters is accepted:
the check is exactly non-emptiness, not blankness. -/
theorem validate_accepts_whitespace (s : String) (hlen : 0 < s.length)
    (hws : ∀ c ∈ s.data, c.isWhitespace) :
    validate (some s) = Except.ok () := by
  have hne : s ≠ "" := by
    intro h
    subst h
    simp [String.length] at hlen
  simp [validate, hne]

/-- C5 witness: a single-space username is accepted. -/
theorem validate_accepts_whitespace_witness :
    validate (some " ") = Except.ok () :=
  validate_accepts_whitespace " " (by decide) (by decide)

/-- C6: `is_leap` is total over all integers: it terminates on every input
and returns one of the two booleans, never an error. -/
theorem is_leap_total (y : Int) :
    (is_leap y = true ∨ is_leap y = false) ∧
    is_leap_call y = Except.ok (is_leap y) := by
  refine ⟨?_, rfl⟩
  cases h : is_leap y
  · exact Or.inr rfl
  · exact Or.inl rfl

/-- C7: for every non-empty username, `validate` completes with the unit
result (Python's `None`) and, being a pure function of its argument, has
no observable side effect. -/
theorem validate_nonempty_returns_unit (s : String) (hs : s ≠ "") :
    validate (some s) = Except.ok () := by
  simp [validate, hs]

/-- C7 witness: the concrete username `"bob"`. -/
theorem validate_nonempty_returns_unit_witness :
    validate (some "bob") = Except.ok () :=
  validate_nonempty_returns_unit "bob" (by decide)

/-- C8: `is_leap` is deterministic: any two calls on equal inputs return
the same result (and, as a pure function, it has no side effects). -/
theorem is_leap_deterministic (y₁ y₂ : Int) (h : y₁ = y₂) :
    is_leap y₁ = is_leap y₂ := by
  rw [h]

/-- C8 witness: two calls at the concrete input 2024 agree. -/
theorem is_leap_deterministic_witness :
    is_leap 2024 = is_leap 2024 :=
  is_leap_deterministic 2024 2024 rfl

/-- C9: `fake_auth` returns `True` on every call and `old_auth` returns
`False` on every call; neither raises. -/
theorem auth_stubs_constant :
    fake_auth = Except.ok true ∧ old_auth = Except.ok false :=
  ⟨rfl, rfl⟩

/-- C10: `login()` silently succeeds: it returns `None` and raises no
error rather than signaling an unimplemented-error. -/
theorem login_silently_succeeds :
    login = Except.ok () ∧ ∀ e, login ≠ Except.error e := by
  refine ⟨rfl, ?_⟩
  intro e h
  simp [login] at h
